import Mathlib

/-!
Shallow embedding of `tools/http-api-docs/openapi.go`: the OpenAPI generator
for the IPFS HTTP RPC API.  Pure Go functions become Lean functions; the
`openapi3` output structures are modelled by Lean structures carrying exactly
the fields the generator writes; logging becomes an explicit warning list
where a claim depends on it; `json.Unmarshal` and the Markdown collaborator
are abstracted as function parameters at the boundary.
-/

namespace HttpApiDocs

/-! ### Generic string helpers (mirroring Go's `strings` package functions used) -/

/-- Go `strings.HasPrefix` on character lists. -/
def listHasPre : List Char → List Char → Bool
  | [], _ => true
  | _ :: _, [] => false
  | a :: as, b :: bs => a == b && listHasPre as bs

/-- Go `strings.HasPrefix pre s`. -/
def strHasPre (pre s : String) : Bool :=
  listHasPre pre.data s.data

/-- Go `strings.Contains hay needle`: some suffix of `hay` starts with `needle`. -/
def listHasSub (needle : List Char) : List Char → Bool
  | [] => listHasPre needle []
  | c :: t => listHasPre needle (c :: t) || listHasSub needle t

/-- Go `strings.Contains hay needle`. -/
def strContains (hay needle : String) : Bool :=
  listHasSub needle.data hay.data

/-- Go `strings.HasSuffix s suf`. -/
def strHasSuf (s suf : String) : Bool :=
  listHasPre suf.data.reverse s.data.reverse

/-- Go `strings.TrimSuffix s suf`: drop `suf` when it is a suffix, else `s` unchanged. -/
def trimSuf (s suf : String) : String :=
  if strHasSuf s suf then ⟨s.data.take (s.data.length - suf.data.length)⟩ else s

/-- Go `strings.TrimPrefix s pre`: drop `pre` when it is a prefix, else `s` unchanged. -/
def trimPre (s pre : String) : String :=
  if strHasPre pre s then ⟨s.data.drop pre.data.length⟩ else s

/-- Go `strconv.ParseBool`: accepts exactly these thirteen literals. -/
def goParseBool : String → Option Bool
  | "1" | "t" | "T" | "TRUE" | "true" | "True" => some true
  | "0" | "f" | "F" | "FALSE" | "false" | "False" => some false
  | _ => none

/-- Digits of a base-10 numeral; `none` when empty or a non-digit occurs. -/
def digitsToNat : List Char → Option Nat
  | [] => none
  | cs => go cs 0
where
  go : List Char → Nat → Option Nat
    | [], acc => some acc
    | c :: rest, acc =>
      if c.isDigit then go rest (acc * 10 + (c.toNat - '0'.toNat)) else none

/-- Go `strconv.ParseInt s 10 32`: optional sign, base-10 digits, 32-bit signed range. -/
def goParseInt32 (s : String) : Option Int :=
  let (sign, digits) : Int × List Char :=
    match s.data with
    | '+' :: r => (1, r)
    | '-' :: r => (-1, r)
    | r => (1, r)
  match digitsToNat digits with
  | none => none
  | some n =>
    let v : Int := sign * n
    if -(2 ^ 31) ≤ v ∧ v ≤ 2 ^ 31 - 1 then some v else none

/-! ### Data model -/

/-- Modelled from the spec: an endpoint lifecycle status (the `cmds.Status`
enumeration of the external commands library): Active, Experimental,
Deprecated or Removed. -/
inductive Status where
  | active
  | experimental
  | deprecated
  | removed
  deriving Repr, DecidableEq, BEq

/-- Modelled from the spec: one argument descriptor of an endpoint
(`Argument` is declared in this repository outside the provided sources):
name, declared type, description, optional default (empty string = absent)
and required flag. -/
structure Argument where
  name : String
  type : String
  description : String
  default : String
  required : Bool
  deriving Repr, DecidableEq

/-- Modelled from the spec: one endpoint record (`Endpoint` is declared in
this repository outside the provided sources): path-like name, description,
positional arguments, options, raw example response text, and status. -/
structure Endpoint where
  name : String
  description : String
  arguments : List Argument
  options : List Argument
  response : String
  status : Status
  deriving Repr

/-- The value tree produced by `json.Unmarshal` into `any`, as consumed by
`genSchemaForResponse`: a string, a sequence, a mapping, or any other JSON
value (number, boolean, null), which the generator does not classify. -/
inductive JSON where
  | str : String → JSON
  | arr : List JSON → JSON
  | obj : List (String × JSON) → JSON
  | other : JSON
  deriving Repr

/-- The five-plus-one OpenAPI schema types used by the generator
(`openapi3.SchemaType`). -/
inductive SchemaType where
  | boolean
  | integer
  | number
  | string
  | array
  | object
  deriving Repr, DecidableEq, BEq

/-- A parsed default value as stored by `Schema.WithDefault`: Go hands it an
`any` that is a bool, an int64, a raw string, or (for the merged
multi-argument parameter) a list of per-slot defaults where `none` is Go's
`nil` for a slot without a default. -/
inductive DefaultVal where
  | b : Bool → DefaultVal
  | i : Int → DefaultVal
  | s : String → DefaultVal
  | list : List (Option DefaultVal) → DefaultVal
  deriving Repr

/-- The subset of `openapi3.Schema` fields the generator writes: type, items,
properties, additionalProperties, minItems, maxItems, default, format.
A `none` field is Go's `nil` (field not set); `properties = some l` is a
non-nil Go map rendered as an association list. -/
inductive Schema where
  | node (type : Option SchemaType)
         (items : Option Schema)
         (properties : Option (List (String × Schema)))
         (addProps : Option Schema)
         (minItems : Option Int)
         (maxItems : Option Int)
         (defaultVal : Option DefaultVal)
         (format : Option String) : Schema
  deriving Repr

/-- The schema type field. -/
def Schema.type : Schema → Option SchemaType
  | .node t _ _ _ _ _ _ _ => t

/-- The items field. -/
def Schema.items : Schema → Option Schema
  | .node _ it _ _ _ _ _ _ => it

/-- The properties field. -/
def Schema.properties : Schema → Option (List (String × Schema))
  | .node _ _ pr _ _ _ _ _ => pr

/-- The additionalProperties field. -/
def Schema.addProps : Schema → Option Schema
  | .node _ _ _ ap _ _ _ _ => ap

/-- The minItems field. -/
def Schema.minItems : Schema → Option Int
  | .node _ _ _ _ mn _ _ _ => mn

/-- The maxItems field. -/
def Schema.maxItems : Schema → Option Int
  | .node _ _ _ _ _ mx _ _ => mx

/-- The default field. -/
def Schema.defaultVal : Schema → Option DefaultVal
  | .node _ _ _ _ _ _ d _ => d

/-- The format field. -/
def Schema.format : Schema → Option String
  | .node _ _ _ _ _ _ _ f => f

/-- Go's `&openapi3.Schema{}`: the unconstrained "allow any" schema. -/
def Schema.empty : Schema :=
  .node none none none none none none none none

/-- A schema holding only a type, as built for primitive placeholder tags. -/
def Schema.ofType (t : SchemaType) : Schema :=
  .node (some t) none none none none none none none

/-! ### Response schema inference (`genSchemaForResponse`, openapi.go:174-261) -/

/-- The closed placeholder-tag lookup table from the `case string` branch of
`genSchemaForResponse`; `none` is the warned, unsupported-tag outcome. -/
def tagToType : String → Option SchemaType
  | "<bool>" => some .boolean
  | "<int>" | "<uint>" | "<int32>" | "<uint32>" | "<int64>" | "<uint64>"
  | "<duration-ns>" | "<timestamp>" => some .integer
  | "<float32>" | "<float64>" => some .number
  | "<string>" | "<peer-id>" | "peer-id" | "<cid-string>" | "<multiaddr-string>" =>
      some .string
  | "<array>" => some .array
  | "<object>" => some .object
  | _ => none

mutual

/-- `genSchemaForResponse` (openapi.go:174-261): infer a schema from a parsed
example value; `none` is Go's `nil` ("no opinion", warned).  An array infers
its item type only when it has exactly one element, else the item schema is
unconstrained.  A one-entry mapping keyed by the literal `"<string>"` becomes
an additionalProperties object; every other mapping becomes a fixed-property
object with per-key recursive inference falling back to the unconstrained
schema. -/
def genSchemaForResponse : JSON → Option Schema
  | .str v =>
    match tagToType v with
    | some t => some (Schema.ofType t)
    | none => none
  | .arr [x] =>
    some (.node (some .array) (some ((genSchemaForResponse x).getD Schema.empty))
          none none none none none none)
  | .arr _ =>
    some (.node (some .array) (some Schema.empty) none none none none none none)
  | .obj [(k, x)] =>
    if k = "<string>" then
      some (.node (some .object) none none
            (some ((genSchemaForResponse x).getD Schema.empty)) none none none none)
    else
      some (.node (some .object) none (some (genProps [(k, x)])) none none none none none)
  | .obj kvs =>
    some (.node (some .object) none (some (genProps kvs)) none none none none none)
  | .other => none

/-- The property map built by the fixed-object branch of
`genSchemaForResponse`: each value inferred recursively, `nil` results
replaced by the unconstrained schema. -/
def genProps : List (String × JSON) → List (String × Schema)
  | [] => []
  | (k, v) :: rest => (k, (genSchemaForResponse v).getD Schema.empty) :: genProps rest

end

/-! ### Parameter mapper (`genParameterForArgument`, openapi.go:42-116) -/

/-- The subset of `openapi3.Parameter` fields the generator writes.  `In` is
always query and `Content` always nil, so they are omitted; the
`x-experimental` entry of `MapOfAnything` is the boolean `xExperimental`. -/
structure Parameter where
  name : String
  description : String
  schema : Schema
  required : Option Bool
  deprecated : Option Bool
  explode : Option Bool
  xExperimental : Bool
  deriving Repr

/-- The type switch of `genParameterForArgument` (openapi.go:44-59): the
mapped schema type (`none` for `file`: no parameter — it becomes the request
body) paired with whether the warned `default:` branch was taken, in which
case the type falls back to `string`. -/
def argSchemaTypeW : String → Option SchemaType × Bool
  | "bool" => (some .boolean, false)
  | "int" | "uint" | "int64" => (some .integer, false)
  | "string" => (some .string, false)
  | "array" => (some .array, false)
  | "file" => (none, false)
  | _ => (some .string, true)

/-- Default-value parsing of `genParameterForArgument` (openapi.go:74-86) for
a non-empty raw default: boolean targets use `strconv.ParseBool`, integer
targets use `strconv.ParseInt _ 10 32`, everything else keeps the raw
string; the Bool is true on the warned parse-failure path, where the raw
string is kept. -/
def parseDefaultFor (t : SchemaType) (raw : String) : DefaultVal × Bool :=
  match t with
  | .boolean =>
    match goParseBool raw with
    | some b => (.b b, false)
    | none => (.s raw, true)
  | .integer =>
    match goParseInt32 raw with
    | some i => (.i i, false)
    | none => (.s raw, true)
  | _ => (.s raw, false)

/-- The default stored in the schema (openapi.go:71-88): absent when the raw
default is empty, else the parsed (or kept-raw) value. -/
def schemaDefault (t : SchemaType) (raw : String) : Option DefaultVal :=
  if raw ≠ "" then some (parseDefaultFor t raw).1 else none

/-- The parse-failure warning of openapi.go:83-86. -/
def defaultWarnings (t : SchemaType) (arg : Argument) : List String :=
  if arg.default ≠ "" ∧ (parseDefaultFor t arg.default).2 then
    ["WARN: Couldn't parse default value for " ++ arg.name] else []

/-- The schema built by `genParameterForArgument` (openapi.go:60-88) once the
type is mapped to `t`: string items when `t` is array, and the parsed
default when the raw default is non-empty. -/
def mkParamSchema (t : SchemaType) (arg : Argument) : Schema :=
  .node (some t)
        (if t = .array then some (Schema.ofType .string) else none)
        none none none none (schemaDefault t arg.default) none

/-- The parameter built by `genParameterForArgument` (openapi.go:89-115) once
the type is mapped to `t`: named `"arg"` when aliased, the description with
the auto-generated `" Default: <value>."` suffix stripped, `required` set
only when true, `deprecated` on the `"(DEPRECATED)"` / `"Removed, "`
description heuristics, `x-experimental` on the `"(experimental)"`
heuristic. -/
def mkParam (arg : Argument) (aliasToArg : Bool) (t : SchemaType) : Parameter :=
  { name := if aliasToArg then "arg" else arg.name
    description := trimSuf arg.description (" Default: " ++ arg.default ++ ".")
    schema := mkParamSchema t arg
    required := if arg.required then some true else none
    deprecated :=
      if strContains arg.description "(DEPRECATED)" ||
         strHasPre "Removed, " arg.description then some true else none
    explode := none
    xExperimental := strContains arg.description "(experimental)" }

/-- `genParameterForArgument` (openapi.go:42-116), with its log output made
explicit: the parameter (or `none` for a file-typed argument, Go's `nil`)
together with the warnings printed (unsupported declared type, unparseable
default). -/
def genParameterForArgumentW (arg : Argument) (aliasToArg : Bool) :
    Option Parameter × List String :=
  match (argSchemaTypeW arg.type).1 with
  | none => (none, [])
  | some t =>
    (some (mkParam arg aliasToArg t),
     (if (argSchemaTypeW arg.type).2 then
        ["WARN: Unsupported type for argument: " ++ arg.type] else [])
       ++ defaultWarnings t arg)

/-- `genParameterForArgument` without the log output. -/
def genParameterForArgument (arg : Argument) (aliasToArg : Bool) : Option Parameter :=
  (genParameterForArgumentW arg aliasToArg).1

/-! ### Multi-argument merge (`genParameterForMultiArgument`, openapi.go:118-172) -/

/-- The loop of `genParameterForMultiArgument` (openapi.go:125-135), started
at index `i`: collects the rewritten descriptions, the positional default
list, whether any default is set, the OR of the deprecated flags, and the
`required` value left by the last iteration (false when the list is empty).
Returns `none` when a sub-argument is file-typed — in Go that dereferences
the nil parameter and panics. -/
def multiArgCollect (i : Nat) :
    List Argument → Option (List String × List (Option DefaultVal) × Bool × Bool × Bool)
  | [] => some ([], [], false, false, false)
  | arg :: rest =>
    match genParameterForArgument arg false with
    | none => none
    | some p =>
      match multiArgCollect (i + 1) rest with
      | none => none
      | some (ds, dfs, anyD, dep, req) =>
        let d := "arg" ++ toString i ++ " (" ++ p.name ++ "): " ++ p.description.trim
        some (d :: ds,
              p.schema.defaultVal :: dfs,
              p.schema.defaultVal.isSome || anyD,
              (p.deprecated = some true : Bool) || dep,
              match rest with
              | [] => (p.required = some true : Bool)
              | _ => req)

/-- `genParameterForMultiArgument` (openapi.go:118-172): one merged
array-typed parameter named `"arg"` with `explode = true`, string item
schema, `minItems = maxItems =` the number of arguments, the joined
per-slot descriptions, the positional default list when any slot has a
default, the last argument's required flag, and the OR of the deprecated
flags. -/
def genParameterForMultiArgument (args : List Argument) : Option Parameter :=
  match multiArgCollect 0 args with
  | none => none
  | some (descriptions, defaults, anyDefault, deprecated, required) =>
    let num : Int := args.length
    let schema : Schema :=
      .node (some .array) (some (Schema.ofType .string)) none none
            (some num) (some num)
            (if anyDefault then some (.list defaults) else none) none
    some
      { name := "arg"
        description := String.intercalate "\n" descriptions
        schema := schema
        required := if required then some true else none
        deprecated := if deprecated then some true else none
        explode := some true
        xExperimental := false }

/-! ### Endpoint assembler (`GenerateEndpoint` / `Generate`, openapi.go:263-402) -/

/-- The fixed response text marking a plain-text endpoint (openapi.go:340). -/
def plainTextSentinel : String :=
  "This endpoint returns a `text/plain` response body."

/-- One `openapi3.MediaType` as written by the generator: an optional example
(the parsed response value) and an optional schema. -/
structure MediaTypeM where
  exampleVal : Option JSON
  schema : Option Schema
  deriving Repr

/-- One `openapi3.Response` as written by the generator: the fixed
description and the content map as an association list. -/
structure ResponseM where
  description : String
  content : List (String × MediaTypeM)
  deriving Repr

/-- The `openapi3.RequestBody` the generator synthesizes for file-typed
arguments: the (stripped) Markdown description, the required flag (set when
any body argument is required), and the fixed `multipart/form-data` schema,
kept here in full. -/
structure RequestBody where
  description : String
  required : Option Bool
  contentSchema : Schema
  deriving Repr

/-- The subset of `openapi3.Operation` fields the generator writes: the
operation id, the external-docs anchor name, the endpoint description, the
parameter list, the optional request body, and the optional "200" response. -/
structure Operation where
  id : String
  refname : String
  description : String
  parameters : List Parameter
  requestBody : Option RequestBody
  response200 : Option ResponseM
  deriving Repr

/-- The `multipart/form-data` schema of the request body (openapi.go:308-330):
an object with a single property, named after the first body argument,
holding an array of binary-format strings. -/
def bodyContentSchema (firstName : String) : Schema :=
  .node (some .object) none
        (some [(firstName,
          .node (some .array)
                (some (.node (some .string) none none none none none none
                       (some "binary")))
                none none none none none none)])
        none none none none none

/-- The request-body construction (openapi.go:298-338), with the Markdown
collaborator `md` abstracted: its rendered body block is trimmed and the
`"### Request Body\n\n"` heading stripped; `required` is set when any body
argument is required. -/
def genRequestBody (md : List Argument → String) (bodyArgs : List Argument)
    (firstName : String) : RequestBody :=
  { description := trimPre (md bodyArgs).trim "### Request Body\n\n"
    required := if bodyArgs.any (·.required) then some true else none
    contentSchema := bodyContentSchema firstName }

/-- The three-way response branch of `GenerateEndpoint` (openapi.go:340-380),
with `json.Unmarshal` abstracted as `parse`: the plain-text sentinel gives a
`text/plain` "200" response with neither example nor schema; an empty
response text gives no response at all; any other text is parsed —
a failure leaves no response, a success gives an `application/json` "200"
response carrying the parsed value as example and the inferred schema when
inference succeeded. -/
def genResponse200 (parse : String → Option JSON) (response : String) :
    Option ResponseM :=
  if response = plainTextSentinel then
    some { description := "Successful response"
           content := [("text/plain", { exampleVal := none, schema := none })] }
  else if response ≠ "" then
    match parse response with
    | none => none
    | some j =>
      some { description := "Successful response"
             content := [("application/json",
               { exampleVal := some j, schema := genSchemaForResponse j })] }
  else none

/-- `GenerateEndpoint` (openapi.go:263-383) up to the `AddOperation` call:
build the operation for one endpoint.  Arguments are partitioned into
file-typed (body) and the rest (query); more than one query argument is
merged by `genParameterForMultiArgument`, a single one is aliased to
`"arg"`; one parameter is appended per option; the request body exists only
when file-typed arguments do; the response is `genResponse200`. -/
def GenerateEndpoint (md : List Argument → String) (parse : String → Option JSON)
    (endp : Endpoint) : Operation :=
  let bodyArgs := endp.arguments.filter (·.type = "file")
  let otherArgs := endp.arguments.filter (¬ ·.type = "file")
  let argParams : List Parameter :=
    if otherArgs.length > 1 then
      match genParameterForMultiArgument otherArgs with
      | some p => [p]
      | none => []
    else
      otherArgs.filterMap (genParameterForArgument · (otherArgs.length ≤ 1))
  let optParams : List Parameter :=
    endp.options.filterMap (genParameterForArgument · false)
  { id := trimPre endp.name "/api/v0/"
    refname := ((trimPre endp.name "/").data.map
      (fun c => if c = '/' then '-' else c)).asString
    description := endp.description
    parameters := argParams ++ optParams
    requestBody :=
      match bodyArgs with
      | [] => none
      | first :: _ => some (genRequestBody md bodyArgs first.name)
    response200 := genResponse200 parse endp.response }

/-- Modelled from the spec: `InStatus` (declared in this repository outside
the provided sources) keeps, in catalogue order, the endpoints whose status
is the given one. -/
def InStatus (api : List Endpoint) (status : Status) : List Endpoint :=
  api.filter (·.status == status)

/-- Modelled from the spec: `spec.AddOperation` of the external document
builder registers the operation under the POST verb at the endpoint's path
and fails on a duplicate verb-plus-path registration; the document's paths
are kept as an insertion-ordered association list. -/
def addOperation (paths : List (String × Operation)) (name : String)
    (op : Operation) : Except String (List (String × Operation)) :=
  if paths.any (·.1 = name) then .error ("duplicate path: " ++ name)
  else .ok (paths ++ [(name, op)])

/-- The inner loop of `Generate` (openapi.go:393-398) over one already
filtered and ordered endpoint list, threading the document's paths and
stopping at the first `AddOperation` error. -/
def generateAll (md : List Argument → String) (parse : String → Option JSON)
    (paths : List (String × Operation)) :
    List Endpoint → Except String (List (String × Operation))
  | [] => .ok paths
  | endp :: rest =>
    match addOperation paths endp.name (GenerateEndpoint md parse endp) with
    | .error e => .error e
    | .ok paths2 => generateAll md parse paths2 rest

/-- `Generate` (openapi.go:385-402): iterate the statuses in the fixed order
Active, Experimental, Deprecated, Removed and generate every endpoint of
each status in catalogue order.  (The Go `if len(endpoints) == 0 continue`
is a no-op and folds into the concatenation.) -/
def Generate (md : List Argument → String) (parse : String → Option JSON)
    (api : List Endpoint) : Except String (List (String × Operation)) :=
  generateAll md parse []
    (InStatus api .active ++ InStatus api .experimental ++
     InStatus api .deprecated ++ InStatus api .removed)

/-! ### Derived notions used to state the claims -/

/-- How many of a schema node's shape fields are set: counts one per
non-`nil` field. -/
def countOpt {α : Type} : Option α → Nat
  | none => 0
  | some _ => 1

mutual

/-- A schema tree is flat when every node has at most one of items,
properties and additionalProperties set. -/
def Schema.flatAll : Schema → Bool
  | .node _ it pr ap _ _ _ _ =>
    decide (countOpt it + countOpt pr + countOpt ap ≤ 1)
      && optFlatAll it && propsFlatAll pr && optFlatAll ap

/-- `Schema.flatAll` through an optional child. -/
def optFlatAll : Option Schema → Bool
  | none => true
  | some s => s.flatAll

/-- `Schema.flatAll` through an optional property list. -/
def propsFlatAll : Option (List (String × Schema)) → Bool
  | none => true
  | some l => listFlatAll l

/-- `Schema.flatAll` through a property list. -/
def listFlatAll : List (String × Schema) → Bool
  | [] => true
  | (_, s) :: rest => s.flatAll && listFlatAll rest

end

/-- The deprecated-description heuristic of openapi.go:111-114, per
argument. -/
def argDeprecatedFlag (a : Argument) : Bool :=
  strContains a.description "(DEPRECATED)" || strHasPre "Removed, " a.description

/-- The schema type an argument's parameter ends up with (`string` can only
stand in for the impossible file case). -/
def argEffType (a : Argument) : SchemaType :=
  ((argSchemaTypeW a.type).1).getD .string

/-- The default value an argument contributes to the merged parameter's
positional default list: `none` (Go `nil`) when it has no default. -/
def argDefaultOpt (a : Argument) : Option DefaultVal :=
  schemaDefault (argEffType a) a.default

/-- The claim's notion of a parseable default: a non-empty raw default whose
type-directed parse succeeds. -/
def hasParseableDefault (a : Argument) : Bool :=
  a.default ≠ "" && !(parseDefaultFor (argEffType a) a.default).2

/-- The required flag of the last argument of a list (false when empty):
the value the merge loop of `genParameterForMultiArgument` leaves in its
`required` variable. -/
def lastRequired : List Argument → Bool
  | [] => false
  | [a] => a.required
  | _ :: rest => lastRequired rest

/-! ## Theorems -/

/-- The type switch maps no type but `file` to "no parameter". -/
theorem argSchemaTypeW_eq_none {t : String} (h : (argSchemaTypeW t).1 = none) :
    t = "file" := by
  unfold argSchemaTypeW at h
  split at h <;> simp_all

/-- Every non-file declared type gets a schema type. -/
theorem argSchemaTypeW_isSome {t : String} (h : t ≠ "file") :
    ∃ u, (argSchemaTypeW t).1 = some u := by
  unfold argSchemaTypeW
  split <;> simp_all

/-- A mapped declared type determines the whole generated parameter. -/
theorem genParameterForArgument_eq {arg : Argument} {t : SchemaType} (b : Bool)
    (h : (argSchemaTypeW arg.type).1 = some t) :
    genParameterForArgument arg b = some (mkParam arg b t) := by
  unfold genParameterForArgument genParameterForArgumentW
  rw [h]

/-- The merge loop of `genParameterForMultiArgument`, characterized: over
file-free arguments it never fails and returns the positional defaults, the
any-default and deprecated-OR flags, and the last argument's required
flag. -/
theorem multiArgCollect_eq (i : Nat) (args : List Argument)
    (h : ∀ a ∈ args, a.type ≠ "file") :
    ∃ ds, multiArgCollect i args =
      some (ds, args.map argDefaultOpt,
            args.any (fun a => a.default ≠ ""),
            args.any argDeprecatedFlag,
            lastRequired args) := by
  induction args generalizing i with
  | nil => exact ⟨[], rfl⟩
  | cons a rest ih =>
    obtain ⟨t, ht⟩ := argSchemaTypeW_isSome (h a (by simp))
    obtain ⟨ds, hds⟩ := ih (i + 1) (fun x hx => h x (by simp [hx]))
    refine ⟨("arg" ++ toString i ++ " (" ++ (mkParam a false t).name ++ "): "
      ++ (mkParam a false t).description.trim) :: ds, ?_⟩
    unfold multiArgCollect
    rw [genParameterForArgument_eq false ht, hds]
    have hdef : (mkParam a false t).schema.defaultVal = argDefaultOpt a := by
      simp [mkParam, mkParamSchema, Schema.defaultVal, argDefaultOpt, argEffType, ht]
    have hsome : (argDefaultOpt a).isSome = decide (a.default ≠ "") := by
      by_cases hd : a.default = "" <;>
        simp [argDefaultOpt, schemaDefault, hd]
    have hdep : (decide ((mkParam a false t).deprecated = some true))
        = argDeprecatedFlag a := by
      cases hflag : argDeprecatedFlag a <;>
        simp [mkParam, argDeprecatedFlag] at hflag ⊢ <;> simp [hflag]
    have hreq : (decide ((mkParam a false t).required = some true)) = a.required := by
      cases hr : a.required <;> simp [mkParam, hr]
    cases rest with
    | nil => simp [hdef, hsome, hdep, hreq, lastRequired]
    | cons b bs => simp [hdef, hsome, hdep, hreq, lastRequired]

/-- `genParameterForMultiArgument`, characterized over file-free argument
lists: one `"arg"`-named, exploded, array-typed parameter with string items,
`minItems = maxItems =` the argument count, the positional defaults exactly
when some argument has one, the deprecated-OR flag and the last argument's
required flag. -/
theorem genParameterForMultiArgument_eq (args : List Argument)
    (h : ∀ a ∈ args, a.type ≠ "file") :
    ∃ ds, genParameterForMultiArgument args =
      some
        { name := "arg"
          description := ds
          schema := .node (some .array) (some (Schema.ofType .string)) none none
                    (some (args.length : Int)) (some (args.length : Int))
                    (if args.any (fun a => a.default ≠ "") then
                       some (.list (args.map argDefaultOpt)) else none)
                    none
          required := if lastRequired args then some true else none
          deprecated := if args.any argDeprecatedFlag then some true else none
          explode := some true
          xExperimental := false } := by
  obtain ⟨ds, hds⟩ := multiArgCollect_eq 0 args h
  exact ⟨String.intercalate "\n" ds, by unfold genParameterForMultiArgument; rw [hds]⟩

/-- A fallback to the unconstrained schema preserves flatness. -/
theorem getD_flat {o : Option Schema} (h : optFlatAll o = true) :
    ((o.getD Schema.empty).flatAll) = true := by
  cases o with
  | none => rfl
  | some s => simpa [optFlatAll] using h

mutual

/-- Every schema the response inferencer produces is flat at every node. -/
theorem genFlat : (j : JSON) → optFlatAll (genSchemaForResponse j) = true
  | .str v => by
    cases htag : tagToType v with
    | none => simp [genSchemaForResponse, htag, optFlatAll]
    | some t => simp [genSchemaForResponse, htag, optFlatAll, Schema.flatAll,
        Schema.ofType, propsFlatAll, countOpt]
  | .arr [x] => by
    have hx := genFlat x
    simp [genSchemaForResponse, optFlatAll, Schema.flatAll, propsFlatAll, countOpt]
    exact getD_flat hx
  | .arr [] => by
    simp [genSchemaForResponse, optFlatAll, Schema.flatAll, propsFlatAll, countOpt,
      Schema.empty]
  | .arr (a :: b :: t) => by
    simp [genSchemaForResponse, optFlatAll, Schema.flatAll, propsFlatAll, countOpt,
      Schema.empty]
  | .obj [(k, x)] => by
    have hx := genFlat x
    have hp := genPropsFlat [(k, x)]
    by_cases hk : k = "<string>"
    · simp [genSchemaForResponse, hk, optFlatAll, Schema.flatAll, propsFlatAll, countOpt]
      exact getD_flat hx
    · simp [genSchemaForResponse, hk, optFlatAll, Schema.flatAll, propsFlatAll, countOpt]
      simpa [listFlatAll] using hp
  | .obj [] => by
    simp [genSchemaForResponse, optFlatAll, Schema.flatAll, propsFlatAll, countOpt,
      genProps, listFlatAll]
  | .obj ((k1, v1) :: (k2, v2) :: t) => by
    have hp := genPropsFlat ((k1, v1) :: (k2, v2) :: t)
    simp [genSchemaForResponse, optFlatAll, Schema.flatAll, propsFlatAll, countOpt]
    simpa using hp
  | .other => by simp [genSchemaForResponse, optFlatAll]

/-- Every property list the response inferencer produces is flat. -/
theorem genPropsFlat : (l : List (String × JSON)) → listFlatAll (genProps l) = true
  | [] => by simp [genProps, listFlatAll]
  | (k, v) :: rest => by
    have hv := genFlat v
    have hr := genPropsFlat rest
    simp [genProps, listFlatAll, hr]
    exact getD_flat hv

end

/-- The fixed-object property map, characterized: one property per key, each
the recursive inference of the key's value with the unconstrained schema as
fallback. -/
theorem genProps_eq (kvs : List (String × JSON)) :
    genProps kvs
      = kvs.map (fun kv => (kv.1, (genSchemaForResponse kv.2).getD Schema.empty)) := by
  induction kvs with
  | nil => rfl
  | cons kv rest ih => cases kv with | mk k v => simp [genProps, ih]

/-- C9: every Schema node produced by the response schema inferencer, at any
depth of recursion, has at most one of the fields items, properties and
additionalProperties set. -/
theorem response_schema_always_flat (j : JSON) (s : Schema)
    (h : genSchemaForResponse j = some s) : s.flatAll = true := by
  have hj := genFlat j
  rw [h] at hj
  simpa [optFlatAll] using hj

/-- Witness for C9 at a concrete nested input. -/
theorem response_schema_always_flat_witness :
    (Schema.node (some .object) none
       (some [("Keys", Schema.node (some .array) (some (Schema.ofType .string))
                none none none none none none)])
       none none none none none).flatAll = true :=
  response_schema_always_flat (.obj [("Keys", .arr [.str "<string>"])]) _ rfl

/-- C2 is corrected — counterexample: a two-element sequence of recognizable
boolean tags yields the unconstrained item schema, not one inferred from its
first element (which would be the boolean schema). -/
theorem response_array_first_element_counterexample :
    genSchemaForResponse (.arr [.str "<bool>", .str "<bool>"])
      = some (.node (some .array) (some Schema.empty) none none none none none none) ∧
    genSchemaForResponse (.str "<bool>") = some (Schema.ofType .boolean) ∧
    Schema.empty ≠ Schema.ofType .boolean :=
  ⟨rfl, rfl, by simp [Schema.empty, Schema.ofType]⟩

/-- C2 (amended): a sequence with exactly one element infers the item schema
from that element (falling back to the unconstrained schema when the element
cannot be classified); every other sequence — empty or with two or more
elements — yields an array schema with an unconstrained item schema. -/
theorem response_array_item_inference (x : JSON) (xs : List JSON) :
    genSchemaForResponse (.arr [x])
      = some (.node (some .array) (some ((genSchemaForResponse x).getD Schema.empty))
              none none none none none none) ∧
    (xs.length ≠ 1 →
      genSchemaForResponse (.arr xs)
        = some (.node (some .array) (some Schema.empty) none none none none none none)) := by
  constructor
  · rfl
  · intro h
    match xs, h with
    | [], _ => rfl
    | a :: b :: t, _ => rfl
    | [a], h => exact absurd rfl h

/-- Witness for C2 (amended) at the empty sequence. -/
theorem response_array_item_inference_witness :
    genSchemaForResponse (.arr ([] : List JSON))
      = some (.node (some .array) (some Schema.empty) none none none none none none) :=
  (response_array_item_inference .other []).2 (by decide)

/-- C4: a mapping whose single entry is keyed by the literal `"<string>"`
becomes an object schema whose additionalProperties schema is the inference
of that entry's value (unconstrained when inference has no opinion); any
other mapping becomes an object schema with one recursively inferred
property per key, an unclassifiable nested value degrading to the
unconstrained schema for that property only. -/
theorem response_mapping_inference (x : JSON) (k : String)
    (kvs : List (String × JSON)) :
    genSchemaForResponse (.obj [("<string>", x)])
      = some (.node (some .object) none none
              (some ((genSchemaForResponse x).getD Schema.empty)) none none none none) ∧
    (k ≠ "<string>" →
      genSchemaForResponse (.obj [(k, x)])
        = some (.node (some .object) none
                (some [(k, (genSchemaForResponse x).getD Schema.empty)])
                none none none none none)) ∧
    (kvs.length ≠ 1 →
      genSchemaForResponse (.obj kvs)
        = some (.node (some .object) none (some (genProps kvs)) none none none none none)) ∧
    genProps kvs
      = kvs.map (fun kv => (kv.1, (genSchemaForResponse kv.2).getD Schema.empty)) := by
  refine ⟨rfl, ?_, ?_, genProps_eq kvs⟩
  · intro hk
    simp [genSchemaForResponse, hk, genProps]
  · intro h
    match kvs, h with
    | [], _ => rfl
    | a :: b :: t, _ => rfl
    | [kv], h => exact absurd rfl h

/-- Witness for C4 at a concrete fixed-key mapping with an unclassifiable
nested value. -/
theorem response_mapping_inference_witness :
    genSchemaForResponse (.obj [("Key", .other)])
      = some (.node (some .object) none
              (some [("Key", (genSchemaForResponse .other).getD Schema.empty)])
              none none none none none) :=
  (response_mapping_inference .other "Key" []).2.1 (by decide)

/-- C3: for every list of more than one non-file argument, the merged
parameter's schema is array-typed with `minItems = maxItems =` the number of
arguments. -/
theorem multiArgument_min_max_items (args : List Argument)
    (_hN : 1 < args.length) (hfile : ∀ a ∈ args, a.type ≠ "file") :
    ∃ p, genParameterForMultiArgument args = some p ∧
      p.schema.type = some .array ∧
      p.schema.minItems = some (args.length : Int) ∧
      p.schema.maxItems = some (args.length : Int) := by
  obtain ⟨ds, hds⟩ := genParameterForMultiArgument_eq args hfile
  exact ⟨_, hds, rfl, rfl, rfl⟩

/-- Witness for C3 with two string arguments. -/
theorem multiArgument_min_max_items_witness :
    ∃ p, genParameterForMultiArgument
        [⟨"a", "string", "", "", false⟩, ⟨"b", "string", "", "", true⟩] = some p ∧
      p.schema.type = some .array ∧
      p.schema.minItems = some (2 : Int) ∧
      p.schema.maxItems = some (2 : Int) :=
  multiArgument_min_max_items
    [⟨"a", "string", "", "", false⟩, ⟨"b", "string", "", "", true⟩]
    (by decide) (by decide)

/-- C10: for every list of more than one non-file argument, the merged
parameter's item schema is the string schema, whatever the declared types of
the source arguments. -/
theorem multiArgument_items_always_string (args : List Argument)
    (_hN : 1 < args.length) (hfile : ∀ a ∈ args, a.type ≠ "file") :
    ∃ p, genParameterForMultiArgument args = some p ∧
      p.schema.items = some (Schema.ofType .string) := by
  obtain ⟨ds, hds⟩ := genParameterForMultiArgument_eq args hfile
  exact ⟨_, hds, rfl⟩

/-- Witness for C10 with two integer-typed arguments: the item schema is
still the string schema. -/
theorem multiArgument_items_always_string_witness :
    ∃ p, genParameterForMultiArgument
        [⟨"n", "int", "", "", false⟩, ⟨"m", "int", "", "", false⟩] = some p ∧
      p.schema.items = some (Schema.ofType .string) :=
  multiArgument_items_always_string
    [⟨"n", "int", "", "", false⟩, ⟨"m", "int", "", "", false⟩]
    (by decide) (by decide)

/-- C5 is corrected — counterexample: in a two-argument list where no
argument has a parseable default (the first's `"abc"` fails the 32-bit
integer parse, the second has none), the merged parameter still carries a
default list, holding the kept raw string positionally. -/
theorem multiArgument_default_counterexample :
    (List.all [⟨"a", "int", "", "abc", false⟩, ⟨"b", "string", "", "", true⟩]
        (fun a : Argument => !hasParseableDefault a)) = true ∧
    (genParameterForMultiArgument
        [⟨"a", "int", "", "abc", false⟩, ⟨"b", "string", "", "", true⟩]).map
      (fun p => p.schema.defaultVal)
      = some (some (.list [some (.s "abc"), none])) :=
  ⟨rfl, rfl⟩

/-- C5 (amended): the merged parameter's required flag equals the last
argument's required flag, its deprecated flag is the OR of the per-argument
deprecated flags, and the positional default list is attached exactly when
at least one argument has a non-empty default — parseable or not, a failed
parse having kept the raw string — with every slot's default (or `none` for
an absent one) carried positionally. -/
theorem multiArgument_flags (args : List Argument)
    (_hN : 1 < args.length) (hfile : ∀ a ∈ args, a.type ≠ "file") :
    ∃ p, genParameterForMultiArgument args = some p ∧
      p.required = (if lastRequired args then some true else none) ∧
      p.deprecated = (if args.any argDeprecatedFlag then some true else none) ∧
      p.schema.defaultVal
        = (if args.any (fun a => a.default ≠ "") then
             some (.list (args.map argDefaultOpt)) else none) := by
  obtain ⟨ds, hds⟩ := genParameterForMultiArgument_eq args hfile
  exact ⟨_, hds, rfl, rfl, rfl⟩

/-- Witness for C5 (amended): first argument required and deprecated, last
argument not required, a parseable boolean default on the first slot. -/
theorem multiArgument_flags_witness :
    ∃ p, genParameterForMultiArgument
        [⟨"a", "bool", "x (DEPRECATED)", "true", true⟩,
         ⟨"b", "string", "", "", false⟩] = some p ∧
      p.required = none ∧
      p.deprecated = some true ∧
      p.schema.defaultVal = some (.list [some (.b true), none]) := by
  obtain ⟨p, hp, hreq, hdep, hdef⟩ := multiArgument_flags
    [⟨"a", "bool", "x (DEPRECATED)", "true", true⟩, ⟨"b", "string", "", "", false⟩]
    (by decide) (by decide)
  exact ⟨p, hp, by rw [hreq]; rfl, by rw [hdep]; rfl, by rw [hdef]; rfl⟩

/-- An unsupported declared type falls back to the string schema type. -/
theorem argSchemaTypeW_of_warned {t : String} (h : (argSchemaTypeW t).2 = true) :
    (argSchemaTypeW t).1 = some .string := by
  unfold argSchemaTypeW at h ⊢
  split <;> simp_all

/-- C6: the declared argument type maps through the fixed table — bool to
boolean, int/uint/int64 to integer, string to string, array to an array of
strings — file yields no parameter, and any other declared type warns and
falls back to string, never failing. -/
theorem argument_type_table (arg : Argument) (aliasToArg : Bool) :
    (arg.type = "bool" →
      (genParameterForArgument arg aliasToArg).map (fun p => p.schema.type)
        = some (some .boolean)) ∧
    ((arg.type = "int" ∨ arg.type = "uint" ∨ arg.type = "int64") →
      (genParameterForArgument arg aliasToArg).map (fun p => p.schema.type)
        = some (some .integer)) ∧
    (arg.type = "string" →
      (genParameterForArgument arg aliasToArg).map (fun p => p.schema.type)
        = some (some .string)) ∧
    (arg.type = "array" →
      (genParameterForArgument arg aliasToArg).map
          (fun p => (p.schema.type, p.schema.items))
        = some (some .array, some (Schema.ofType .string))) ∧
    (arg.type = "file" → genParameterForArgument arg aliasToArg = none) ∧
    ((argSchemaTypeW arg.type).2 = true →
      (genParameterForArgument arg aliasToArg).map (fun p => p.schema.type)
        = some (some .string) ∧
      ("WARN: Unsupported type for argument: " ++ arg.type)
        ∈ (genParameterForArgumentW arg aliasToArg).2) ∧
    (arg.type ≠ "file" → (genParameterForArgument arg aliasToArg).isSome = true) := by
  refine ⟨?_, ?_, ?_, ?_, ?_, ?_, ?_⟩
  · intro h
    rw [genParameterForArgument_eq aliasToArg (t := .boolean) (by rw [h]; rfl)]
    rfl
  · intro h
    rcases h with h | h | h <;>
      rw [genParameterForArgument_eq aliasToArg (t := .integer) (by rw [h]; rfl)] <;> rfl
  · intro h
    rw [genParameterForArgument_eq aliasToArg (t := .string) (by rw [h]; rfl)]
    rfl
  · intro h
    rw [genParameterForArgument_eq aliasToArg (t := .array) (by rw [h]; rfl)]
    rfl
  · intro h
    unfold genParameterForArgument genParameterForArgumentW
    rw [h]
    rfl
  · intro h
    have ht := argSchemaTypeW_of_warned h
    constructor
    · rw [genParameterForArgument_eq aliasToArg ht]
      rfl
    · unfold genParameterForArgumentW
      rw [ht]
      simp [h]
  · intro h
    obtain ⟨u, hu⟩ := argSchemaTypeW_isSome h
    rw [genParameterForArgument_eq aliasToArg hu]
    rfl

/-- Witness for C6 at an unsupported declared type. -/
theorem argument_type_table_witness :
    (genParameterForArgument ⟨"x", "strange", "", "", false⟩ false).map
        (fun p => p.schema.type) = some (some .string) ∧
    ("WARN: Unsupported type for argument: strange")
      ∈ (genParameterForArgumentW ⟨"x", "strange", "", "", false⟩ false).2 :=
  (argument_type_table ⟨"x", "strange", "", "", false⟩ false).2.2.2.2.2.1 rfl

/-- C7: a present default is parsed by type — boolean parse for bool,
32-bit signed integer parse for the integer types — and stored in the
schema; a failed parse keeps the raw string as the default and warns; the
auto-generated `" Default: <value>."` suffix is stripped from the
description; and the example argument named `timeout` of type `int` with
default `"30"` yields the parameter named `timeout` with an integer schema,
default 30 and description `"Timeout."`. -/
theorem argument_default_handling (arg : Argument) (aliasToArg : Bool) :
    (arg.type = "bool" → arg.default ≠ "" →
      (genParameterForArgument arg aliasToArg).map (fun p => p.schema.defaultVal)
        = some (some (match goParseBool arg.default with
                      | some b => .b b
                      | none => .s arg.default))) ∧
    ((arg.type = "int" ∨ arg.type = "uint" ∨ arg.type = "int64") → arg.default ≠ "" →
      (genParameterForArgument arg aliasToArg).map (fun p => p.schema.defaultVal)
        = some (some (match goParseInt32 arg.default with
                      | some i => .i i
                      | none => .s arg.default))) ∧
    (∀ t, (argSchemaTypeW arg.type).1 = some t → arg.default ≠ "" →
      (parseDefaultFor t arg.default).2 = true →
      ("WARN: Couldn't parse default value for " ++ arg.name)
        ∈ (genParameterForArgumentW arg aliasToArg).2) ∧
    (∀ t, (argSchemaTypeW arg.type).1 = some t →
      (genParameterForArgument arg aliasToArg).map (fun p => p.description)
        = some (trimSuf arg.description (" Default: " ++ arg.default ++ "."))) ∧
    (genParameterForArgument ⟨"timeout", "int", "Timeout. Default: 30.", "30", false⟩ false
      = some { name := "timeout"
               description := "Timeout."
               schema := .node (some .integer) none none none none none
                         (some (.i 30)) none
               required := none
               deprecated := none
               explode := none
               xExperimental := false }) := by
  refine ⟨?_, ?_, ?_, ?_, rfl⟩
  · intro h hd
    rw [genParameterForArgument_eq aliasToArg (t := .boolean) (by rw [h]; rfl)]
    show some (schemaDefault SchemaType.boolean arg.default) = _
    simp only [schemaDefault, if_pos hd]
    cases hb : goParseBool arg.default <;> simp [parseDefaultFor, hb]
  · intro h hd
    have ht : (argSchemaTypeW arg.type).1 = some .integer := by
      rcases h with h | h | h <;> rw [h] <;> rfl
    rw [genParameterForArgument_eq aliasToArg ht]
    show some (schemaDefault SchemaType.integer arg.default) = _
    simp only [schemaDefault, if_pos hd]
    cases hi : goParseInt32 arg.default <;> simp [parseDefaultFor, hi]
  · intro t ht hd hfail
    unfold genParameterForArgumentW
    rw [ht]
    simp [defaultWarnings, hd, hfail]
  · intro t ht
    rw [genParameterForArgument_eq aliasToArg ht]
    rfl

/-- Witness for C7 at a boolean argument with an unparseable default. -/
theorem argument_default_handling_witness :
    (genParameterForArgument ⟨"flag", "bool", "", "maybe", false⟩ true).map
        (fun p => p.schema.defaultVal) = some (some (.s "maybe")) ∧
    ("WARN: Couldn't parse default value for flag")
      ∈ (genParameterForArgumentW ⟨"flag", "bool", "", "maybe", false⟩ true).2 := by
  have h := argument_default_handling ⟨"flag", "bool", "", "maybe", false⟩ true
  exact ⟨h.1 rfl (by decide), h.2.2.1 .boolean rfl (by decide) rfl⟩

/-- C8: the response is handled by a three-way branch on the raw response
text — the plain-text sentinel yields a `text/plain` "200" response with no
schema; empty text yields no response object; any other text goes through
the JSON parse, a failure leaving no response object and a success yielding
an `application/json` "200" response carrying the parsed value as example
and the inferred schema exactly when inference succeeds. -/
theorem endpoint_response_branch (md : List Argument → String)
    (parse : String → Option JSON) (endp : Endpoint) :
    (endp.response = plainTextSentinel →
      (GenerateEndpoint md parse endp).response200
        = some { description := "Successful response"
                 content := [("text/plain", { exampleVal := none, schema := none })] }) ∧
    (endp.response = "" →
      (GenerateEndpoint md parse endp).response200 = none) ∧
    (endp.response ≠ plainTextSentinel → endp.response ≠ "" →
      parse endp.response = none →
      (GenerateEndpoint md parse endp).response200 = none) ∧
    (∀ j, endp.response ≠ plainTextSentinel → endp.response ≠ "" →
      parse endp.response = some j →
      (GenerateEndpoint md parse endp).response200
        = some { description := "Successful response"
                 content := [("application/json",
                   { exampleVal := some j, schema := genSchemaForResponse j })] }) := by
  have hresp : (GenerateEndpoint md parse endp).response200
      = genResponse200 parse endp.response := rfl
  refine ⟨?_, ?_, ?_, ?_⟩
  · intro h
    rw [hresp, h]
    simp [genResponse200]
  · intro h
    rw [hresp, h]
    simp [genResponse200, plainTextSentinel]
  · intro h1 h2 h3
    rw [hresp]
    simp [genResponse200, h1, h2, h3]
  · intro j h1 h2 h3
    rw [hresp]
    simp [genResponse200, h1, h2, h3]

/-- Witness for C8: the sentinel response of a concrete endpoint yields the
schema-free `text/plain` "200" response. -/
theorem endpoint_response_branch_witness :
    (GenerateEndpoint (fun _ => "") (fun _ => none)
        { name := "/api/v0/t", description := "", arguments := [], options := [],
          response := plainTextSentinel, status := .active }).response200
      = some { description := "Successful response"
               content := [("text/plain", { exampleVal := none, schema := none })] } :=
  (endpoint_response_branch (fun _ => "") (fun _ => none)
    { name := "/api/v0/t", description := "", arguments := [], options := [],
      response := plainTextSentinel, status := .active }).1 rfl

/-- The generation loop, characterized: a successful run appends one
operation per endpoint, in list order, to the accumulated paths. -/
theorem generateAll_ok (md : List Argument → String) (parse : String → Option JSON) :
    ∀ (l : List Endpoint) (paths r : List (String × Operation)),
      generateAll md parse paths l = .ok r →
      r = paths ++ l.map (fun e => (e.name, GenerateEndpoint md parse e)) := by
  intro l
  induction l with
  | nil =>
    intro paths r h
    simp only [generateAll] at h
    cases h
    simp
  | cons e rest ih =>
    intro paths r h
    simp only [generateAll] at h
    cases hadd : addOperation paths e.name (GenerateEndpoint md parse e) with
    | error s => rw [hadd] at h; simp at h
    | ok paths2 =>
      rw [hadd] at h
      simp only [] at h
      have hp2 : paths2 = paths ++ [(e.name, GenerateEndpoint md parse e)] := by
        unfold addOperation at hadd
        by_cases hdup : paths.any (fun q => q.1 = e.name)
        · rw [if_pos hdup] at hadd; cases hadd
        · rw [if_neg hdup] at hadd; cases hadd; rfl
      have hr := ih paths2 r h
      rw [hp2] at hr
      simp [hr]

/-- C1 is corrected — counterexample: a catalogue holding a single Removed
endpoint still yields a document containing that endpoint's operation, so
Removed endpoints do appear. -/
theorem generate_removed_counterexample :
    (Generate (fun _ => "") (fun _ => none)
        [{ name := "/api/v0/gone", description := "", arguments := [], options := [],
           response := "", status := .removed }]).toOption.map (List.map Prod.fst)
      = some ["/api/v0/gone"] := rfl

/-- C1 (amended): a successfully generated document lists exactly the
operations of the catalogue's endpoints grouped in the fixed status order
Active, Experimental, Deprecated, Removed (catalogue order within a group);
Removed endpoints are generated too, in the last group, not omitted. -/
theorem generate_status_order (md : List Argument → String)
    (parse : String → Option JSON) (api : List Endpoint)
    (doc : List (String × Operation)) (h : Generate md parse api = .ok doc) :
    doc = (InStatus api .active ++ InStatus api .experimental ++
           InStatus api .deprecated ++ InStatus api .removed).map
            (fun e => (e.name, GenerateEndpoint md parse e)) := by
  have hall := generateAll_ok md parse
    (InStatus api .active ++ InStatus api .experimental ++
     InStatus api .deprecated ++ InStatus api .removed) [] doc h
  simpa using hall

/-- Witness for C1 (amended): a catalogue listing a Removed endpoint before
an Active one generates the Active operation first and the Removed one
last. -/
theorem generate_status_order_witness :
    ([("/api/v0/live",
        GenerateEndpoint (fun _ => "") (fun _ => none)
          { name := "/api/v0/live", description := "", arguments := [], options := [],
            response := "", status := .active }),
      ("/api/v0/gone",
        GenerateEndpoint (fun _ => "") (fun _ => none)
          { name := "/api/v0/gone", description := "", arguments := [], options := [],
            response := "", status := .removed })] : List (String × Operation))
      = (InStatus
           [{ name := "/api/v0/gone", description := "", arguments := [], options := [],
              response := "", status := .removed },
            { name := "/api/v0/live", description := "", arguments := [], options := [],
              response := "", status := .active }] .active ++
         InStatus
           [{ name := "/api/v0/gone", description := "", arguments := [], options := [],
              response := "", status := .removed },
            { name := "/api/v0/live", description := "", arguments := [], options := [],
              response := "", status := .active }] .experimental ++
         InStatus
           [{ name := "/api/v0/gone", description := "", arguments := [], options := [],
              response := "", status := .removed },
            { name := "/api/v0/live", description := "", arguments := [], options := [],
              response := "", status := .active }] .deprecated ++
         InStatus
           [{ name := "/api/v0/gone", description := "", arguments := [], options := [],
              response := "", status := .removed },
            { name := "/api/v0/live", description := "", arguments := [], options := [],
              response := "", status := .active }] .removed).map
          (fun e => (e.name, GenerateEndpoint (fun _ => "") (fun _ => none) e)) :=
  generate_status_order (fun _ => "") (fun _ => none)
    [{ name := "/api/v0/gone", description := "", arguments := [], options := [],
       response := "", status := .removed },
     { name := "/api/v0/live", description := "", arguments := [], options := [],
       response := "", status := .active }]
    [("/api/v0/live",
       GenerateEndpoint (fun _ => "") (fun _ => none)
         { name := "/api/v0/live", description := "", arguments := [], options := [],
           response := "", status := .active }),
     ("/api/v0/gone",
       GenerateEndpoint (fun _ => "") (fun _ => none)
         { name := "/api/v0/gone", description := "", arguments := [], options := [],
           response := "", status := .removed })]
    rfl

end HttpApiDocs
